import Mathlib

/-!
# Verification of the mulheres_politica scraping pipeline

Shallow embedding, in Lean 4, of the core data-processing logic of the
`mulheres_politica` repository (TSE CSV/ZIP bulk filter, paginated web
scraper, profile enricher, text extractor and record builder), together
with theorems settling the specification's claims about them.

Python string primitives (`.strip()`, `.lower()`, `.upper()`, `in`,
`.startswith`) are modelled character-wise over `List Char`; case mapping
uses `Char.toLower`/`Char.toUpper` (an ASCII restriction of Python's
Unicode case mapping — all inputs exercised by the theorems are such that
the two agree).  Network and HTML-parsing effects are modelled as
explicit environment functions (page number ↦ fetch outcome, selector ↦
selection outcome), so every embedded function is pure and executable.
-/

namespace MulheresPolitica

/-! ## Python string primitives -/

/-- `startsWith pat l` models Python `l.startswith(pat)` on char lists. -/
def startsWith : List Char → List Char → Bool
  | [], _ => true
  | _ :: _, [] => false
  | a :: as, b :: bs => a = b && startsWith as bs

/-- `containsSub pat l` models Python `pat in l` (substring test) on char lists. -/
def containsSub (pat : List Char) : List Char → Bool
  | [] => pat.isEmpty
  | c :: rest => startsWith pat (c :: rest) || containsSub pat rest

/-- Python `pat in s` for strings. -/
def strContains (s pat : String) : Bool :=
  containsSub pat.data s.data

/-- Python `s.lower()` (character-wise, ASCII case mapping). -/
def pyLower (s : String) : String :=
  ⟨s.data.map Char.toLower⟩

/-- Python `s.upper()` (character-wise, ASCII case mapping). -/
def pyUpper (s : String) : String :=
  ⟨s.data.map Char.toUpper⟩

/-- Python `s.strip()`: drop leading and trailing whitespace. -/
def pyStrip (s : String) : String :=
  ⟨(((s.data.dropWhile Char.isWhitespace).reverse.dropWhile Char.isWhitespace).reverse)⟩

/-- Python `s.startswith(pat)` for strings. -/
def strStartsWith (s pat : String) : Bool :=
  startsWith pat.data s.data

/-- Python `s.endswith(pat)` for strings. -/
def strEndsWith (s pat : String) : Bool :=
  startsWith pat.data.reverse s.data.reverse

/-! ## CSV/ZIP Bulk Filter (TSE path)

Embedding of `processar_dados` from
`src/mulheres_politica/scraping/coletor_dados_abertos_vereadoras.py`
(the per-row logic of `CsvToJsonVereadoras.processar_csvs_em_memoria` in
`csv_to_json_vereadoras.py` is identical apart from the key-presence
precheck, which that version folds into `linha.get('CD_CARGO') != '13'`).

A CSV row (one `csv.DictReader` dict) is modelled as a record of the
columns the code reads; `none` models an absent key (`.get` → `None`). -/

structure Row where
  cd_cargo : Option String := none
  cd_genero : Option String := none
  ds_sit_tot_turno : Option String := none
  nm_urna_candidato : Option String := none
  nm_candidato : Option String := none
  sg_partido : Option String := none
  sg_uf : Option String := none
  nm_ue : Option String := none
  nm_municipio_nascimento : Option String := none
  sg_uf_nascimento : Option String := none
  ds_email : Option String := none
  dt_nascimento : Option String := none
  ds_grau_instrucao : Option String := none
  ds_ocupacao : Option String := none
  ds_estado_civil : Option String := none
  ds_cor_raca : Option String := none
deriving DecidableEq, Repr

/-- The `stats` counter dictionary of `processar_dados`. -/
structure GenderTally where
  total_eleitos_geral : Nat := 0
  total_homens_eleitos : Nat := 0
  total_mulheres_eleitas : Nat := 0
  total_nao_divulgado_eleitos : Nat := 0
deriving DecidableEq, Repr

/-- One output record (`dados_vereadora` dict). -/
structure Vereadora where
  nome : Option String
  nome_civil : Option String
  partido : Option String
  uf : Option String
  municipio : Option String
  periodo_mandato : String
  naturalidade : String
  situacao : String
  data_nascimento : Option String
  grau_instrucao : Option String
  ocupacao : Option String
  estado_civil : Option String
  cor_raca : Option String
  email : String
  fonte_dados : String
  url_fonte : String
  data_extracao : String
deriving DecidableEq, Repr

def termos_vitoria : List String :=
  ["ELEITO", "ELEITO POR QP", "ELEITO POR MÉDIA"]

/-- Building the `dados_vereadora` dict for a female elected row. -/
def buildVereadora (linha : Row) (situacao url_zip ts : String) : Vereadora :=
  let cidade_nasc := linha.nm_municipio_nascimento.getD "Não Informado"
  let uf_nasc := linha.sg_uf_nascimento.getD ""
  let naturalidade := if uf_nasc ≠ "" then s!"{cidade_nasc} - {uf_nasc}" else "Não Informado"
  let email0 := pyLower (linha.ds_email.getD "")
  let email := if strContains email0 "não divulgável" then "Não divulgado" else email0
  { nome := linha.nm_urna_candidato
    nome_civil := linha.nm_candidato
    partido := linha.sg_partido
    uf := linha.sg_uf
    municipio := linha.nm_ue
    periodo_mandato := "2025-2028"
    naturalidade := naturalidade
    situacao := situacao
    data_nascimento := linha.dt_nascimento
    grau_instrucao := linha.ds_grau_instrucao
    ocupacao := linha.ds_ocupacao
    estado_civil := linha.ds_estado_civil
    cor_raca := linha.ds_cor_raca
    email := email
    fonte_dados := "TSE - Dados Abertos 2024"
    url_fonte := url_zip
    data_extracao := ts }

/-- The body of the `for linha in leitor` loop of `processar_dados`:
    given the running tally and one row, returns the updated tally and
    the produced record, if any. -/
def processarLinha (stats : GenderTally) (linha : Row) (url_zip ts : String) :
    GenderTally × Option Vereadora :=
  if linha.cd_cargo.isNone || linha.cd_genero.isNone then (stats, none)
  else if linha.cd_cargo ≠ some "13" then (stats, none)
  else
    let situacao := pyUpper (linha.ds_sit_tot_turno.getD "")
    if situacao ∉ termos_vitoria then (stats, none)
    else if strContains situacao "SUPLENTE" || strContains situacao "NÃO ELEITO" then (stats, none)
    else
      let stats1 := { stats with total_eleitos_geral := stats.total_eleitos_geral + 1 }
      match linha.cd_genero with
      | some "2" =>
          ({ stats1 with total_homens_eleitos := stats1.total_homens_eleitos + 1 }, none)
      | some "4" =>
          ({ stats1 with total_mulheres_eleitas := stats1.total_mulheres_eleitas + 1 },
           some (buildVereadora linha situacao url_zip ts))
      | _ =>
          ({ stats1 with total_nao_divulgado_eleitos := stats1.total_nao_divulgado_eleitos + 1 }, none)

/-- The row loop over one CSV member file. -/
def processLinhas (url_zip ts : String) :
    GenderTally × List Vereadora → List Row → GenderTally × List Vereadora
  | acc, [] => acc
  | (stats, vs), linha :: rest =>
      let (stats', rec?) := processarLinha stats linha url_zip ts
      processLinhas url_zip ts (stats', vs ++ rec?.toList) rest

/-- ZIP member-name filter of `processar_dados` (lower-cased name ends in
    `.csv`, contains `consulta_cand`, does not contain `brasil`). -/
def csvNameOk (name : String) : Bool :=
  strEndsWith (pyLower name) ".csv" &&
  strContains (pyLower name) "consulta_cand" &&
  !(strContains (pyLower name) "brasil")

/-- Outcome of `requests.get(url_zip)` + `zipfile.ZipFile(...)`: either the
    whole download/extraction raises (caught by the outer `except`) or it
    yields named CSV member files, each a list of parsed rows. -/
inductive Download where
  | fail
  | ok (files : List (String × List Row))
deriving DecidableEq, Repr

/-- Result of `processar_dados`: the empty-list failure value, the
    `resultado_final` dict (its per-gender totals and record list), or an
    uncaught Python exception.  The `representatividade_feminina_percentual`
    float is modelled only through the `ZeroDivisionError` it raises when
    `total_eleitos_geral` is zero (the division sits outside the
    `try` block in the source). -/
inductive ProcOutcome where
  | emptyList
  | resultado (stats : GenderTally) (vs : List Vereadora)
  | raised (exn : String)
deriving DecidableEq, Repr

/-- `processar_dados(url_zip)` (UFS_ALVO is the empty list, so no member
    file is skipped by the UF filter). -/
def processar_dados (dl : Download) (url_zip ts : String) : ProcOutcome :=
  match dl with
  | .fail => .emptyList
  | .ok files =>
      let csvs := files.filter (fun f => csvNameOk f.1)
      if csvs.isEmpty then .emptyList
      else
        let (stats, vs) := csvs.foldl
          (fun acc f => processLinhas url_zip ts acc f.2) (({} : GenderTally), [])
        if stats.total_eleitos_geral = 0 then .raised "ZeroDivisionError"
        else .resultado stats vs

/-- Outcome of running a script `main` to completion: clean return or an
    uncaught exception propagating out. -/
inductive MainOutcome where
  | ok
  | raised (exn : String)
deriving DecidableEq, Repr

/-- `main()` of `coletor_dados_abertos_vereadoras.py`: looks up the URL
    (modelled as the `Option String` the lookup ends in), calls
    `processar_dados`, then evaluates `resultado["vereadoras"]` and
    `resultado["metadados"]["total_vereadores_brasil"]` — which raises
    `TypeError` when `processar_dados` returned its empty-list failure
    value (string indices into a Python `list`). -/
def coletor_main (urlResult : Option String) (dl : Download) (ts : String) : MainOutcome :=
  match urlResult with
  | none => .ok
  | some url =>
      match processar_dados dl url ts with
      | .raised e => .raised e
      | .emptyList => .raised "TypeError"
      | .resultado _ _ => .ok

/-! ## Paginator

Embedding of `process_paginated_results` from
`src/mulheres_politica/scraping/webscraping_deputadas.py` (lines
1132–1217: the page loop; the trailing call to
`collect_detailed_profiles` is a separate component, modelled below).

The network and `parse_deputadas_results` are modelled as an environment
function `fetch : Nat → FetchOutcome α`: for each page number, either a
200 response carrying the page's `soup.get_text()` text together with the
records `parse_deputadas_results` extracts from its content, a 404, some
other HTTP status, or an exception during the request. -/

inductive FetchOutcome (α : Type) where
  | ok (text : String) (records : List α)
  | notFound
  | httpError (code : Nat)
  | exn
deriving DecidableEq, Repr

/-- The loop state of `process_paginated_results`: `current_page`,
    `consecutive_errors`, `all_deputadas`, plus the trace of page numbers
    fetched so far (page 1 is fetched by the caller). -/
structure PagState (α : Type) where
  page : Nat
  errors : Nat
  acc : List α
  fetched : List Nat
deriving DecidableEq, Repr

def max_consecutive_errors : Nat := 3

def no_results_indicators : List String :=
  ["nenhuma ocorrência encontrada",
   "nenhum resultado encontrado",
   "não foram encontrados resultados",
   "sua pesquisa não retornou resultados",
   "não há deputados"]

/-- One loop body of `process_paginated_results`: `halt` models the
    `break` statements, `cont` falls through to the next iteration. -/
inductive StepRes (α : Type) where
  | cont (s : PagState α)
  | halt (s : PagState α)
deriving DecidableEq, Repr

def pagStep (fetch : Nat → FetchOutcome α) (s : PagState α) : StepRes α :=
  let p := s.page + 1
  let f := s.fetched ++ [p]
  match fetch p with
  | .ok text records =>
      let pageText := pyLower text
      if no_results_indicators.any (fun ind => strContains pageText ind) then
        .halt { page := p, errors := s.errors, acc := s.acc, fetched := f }
      else if !records.isEmpty then
        .cont { page := p, errors := 0, acc := s.acc ++ records, fetched := f }
      else if !(strContains pageText "deputad") && !(strContains pageText "resultado") then
        .halt { page := p, errors := s.errors, acc := s.acc, fetched := f }
      else
        .cont { page := p, errors := s.errors + 1, acc := s.acc, fetched := f }
  | .notFound =>
      .halt { page := p, errors := s.errors, acc := s.acc, fetched := f }
  | .httpError _ =>
      .cont { page := p, errors := s.errors + 1, acc := s.acc, fetched := f }
  | .exn =>
      .cont { page := p, errors := s.errors + 1, acc := s.acc, fetched := f }

/-- The `while consecutive_errors < max_consecutive_errors` loop, with
    explicit fuel (the source loop is unbounded; every claim is about runs
    in which it halts, so fuel only needs to cover those runs). -/
def pagLoop (fetch : Nat → FetchOutcome α) : Nat → PagState α → PagState α
  | 0, s => s
  | fuel + 1, s =>
      if s.errors < max_consecutive_errors then
        match pagStep fetch s with
        | .halt s' => s'
        | .cont s' => pagLoop fetch fuel s'
      else s

/-- `process_paginated_results`: page 1 arrives pre-fetched (as
    `initial_response`), its parsed records seed the accumulator without
    touching the error counter, then the loop fetches pages 2, 3, …. -/
def process_paginated_results (fetch : Nat → FetchOutcome α)
    (page1records : List α) (fuel : Nat) : PagState α :=
  pagLoop fetch fuel { page := 1, errors := 0, acc := page1records, fetched := [1] }

/-- A fetch outcome that takes the `consecutive_errors += 1` paths
    (non-200-non-404 status, or an exception during the request). -/
def isFetchFailure : FetchOutcome α → Bool
  | .httpError _ => true
  | .exn => true
  | _ => false

/-! ## Profile Enricher

Embedding of `collect_detailed_profiles` from `webscraping_deputadas.py`
(lines 1389–1449); `webscraping_senadoras.py` lines 172–210 has the same
structure (only the inter-request sleeps and the session object differ,
neither of which affects the returned list).

A scraped record is a Python dict, modelled as an association list; the
per-record profile fetch is an environment function indexed by the
record's 1-based position (`enumerate(deputadas, 1)`). -/

abbrev Dict := List (String × String)

/-- Python `{**base, **upd}`: keys of `base` keep their position and are
    overwritten by `upd` on collision; new keys of `upd` follow. -/
def dictMerge (base upd : Dict) : Dict :=
  base.map (fun kv => (kv.1, ((upd.lookup kv.1).getD kv.2))) ++
    upd.filter (fun kv => (base.lookup kv.1).isNone)

/-- Outcome of `session.get(perfil_url, ...)` followed by
    `extract_profile_details`: a 200 response with the extracted detail
    dict, some other status, or an exception. -/
inductive ProfileFetch where
  | success (detalhes : Dict)
  | httpError (code : Nat)
  | exn
deriving DecidableEq, Repr

/-- The per-record body of the `for i, deputada in enumerate(deputadas, 1)`
    loop: pass through on empty `link_perfil`, merge the detail dict on a
    200 fetch, pass through on any other status or exception. -/
def enrichOne (fetch : Nat → ProfileFetch) (i : Nat) (d : Dict) : Dict :=
  if (d.lookup "link_perfil").getD "" = "" then d
  else
    match fetch i with
    | .success detalhes => dictMerge d detalhes
    | .httpError _ => d
    | .exn => d

/-- `collect_detailed_profiles`, starting from 1-based index `i`.  The
    loop body reads `deputada['nome']` (for the progress print) before
    anything else; a record without a `nome` key would raise an uncaught
    `KeyError`, modelled as `none`. -/
def collect_detailed_profiles (fetch : Nat → ProfileFetch) :
    Nat → List Dict → Option (List Dict)
  | _, [] => some []
  | i, d :: rest =>
      match d.lookup "nome" with
      | none => none
      | some _ =>
          (collect_detailed_profiles fetch (i + 1) rest).map
            (fun out => enrichOne fetch i d :: out)

/-- The enrichment map, written as an explicitly 1:1, order-preserving
    recursion (used to state what `collect_detailed_profiles` returns). -/
def enrichAll (fetch : Nat → ProfileFetch) : Nat → List Dict → List Dict
  | _, [] => []
  | i, d :: rest => enrichOne fetch i d :: enrichAll fetch (i + 1) rest

/-! ## Text/Field Extractor and Record Builder

Embedding of `extract_text_by_selectors`, `clean_deputada_name`,
`clean_text` and `extract_deputada_from_element` from
`webscraping_deputadas.py`.  `element.select_one(selector)` is modelled
as an environment function from the selector string to: an exception, no
match, or a matched element's `get_text()` result. -/

inductive SelOutcome where
  | exn
  | noMatch
  | found (text : String)
deriving DecidableEq, Repr

/-- An HTML element, as the Record Builder observes it: its
    `select_one` behaviour per selector, and the `href` of its first
    `<a href=...>` descendant (`element.find('a', href=True)`). -/
structure Element where
  sel : String → SelOutcome
  firstHref : Option String

/-- `extract_text_by_selectors(element, selectors)`: first selector whose
    match has stripped text of length > 1 wins; per-selector exceptions
    skip that selector; otherwise the empty string. -/
def extract_text_by_selectors (el : String → SelOutcome) : List String → String
  | [] => ""
  | selector :: rest =>
      match el selector with
      | .exn => extract_text_by_selectors el rest
      | .noMatch => extract_text_by_selectors el rest
      | .found t =>
          let text := pyStrip t
          if text ≠ "" && text.length > 1 then text
          else extract_text_by_selectors el rest

def unwanted_phrases : List String :=
  ["pesquise", "deputado", "filtro", "buscar", "resultado",
   "página", "menu", "navegação", "ver mais", "clique"]

/-- `clean_deputada_name(name)`. -/
def clean_deputada_name (name : String) : String :=
  if name = "" then ""
  else
    let name_lower := pyLower name
    if unwanted_phrases.any (fun phrase => strContains name_lower phrase) then ""
    else
      let name1 := pyStrip name
      if name1.length < 3 || name1.length > 100 then ""
      else if !(name1.data.any Char.isAlpha) then ""
      else name1

/-- `clean_text(text)`: strip, then truncate to 50 characters. -/
def clean_text (text : String) : String :=
  if text = "" then "" else ⟨(pyStrip text).data.take 50⟩

def nome_selectors : List String :=
  [".nome-deputado", ".nome-resultado", ".deputado-nome",
   ".card-title", ".resultado-nome", ".nome-parlamentar",
   "h1", "h2", "h3", "h4", "h5",
   "a[href*=\x22/deputados/\x22]", "a.nome", "a strong",
   "strong", "b",
   "td:first-child", "th:first-child"]

def partido_selectors : List String :=
  [".partido", ".sigla-partido", ".partido-deputado",
   ".card-partido", ".resultado-partido",
   "td:nth-child(2)", ".party", ".sigla"]

def uf_selectors : List String :=
  [".uf", ".estado", ".sigla-uf", ".card-uf",
   ".resultado-uf", ".estado-deputado",
   "td:nth-child(3)", ".state"]

def legislatura_selectors : List String :=
  [".legislatura", ".mandato", ".periodo", "td:nth-child(4)"]

def situacao_selectors : List String :=
  [".situacao", ".status", ".exercicio", "td:nth-child(5)"]

/-- The `deputada_data` dict built by `extract_deputada_from_element`. -/
structure DeputadaData where
  nome : String
  partido : String
  uf : String
  legislatura : String
  situacao : String
  link_perfil : String
  fonte_dados : String
  url_fonte : String
  data_extracao : String
  metodo_extracao : String
deriving DecidableEq, Repr

/-- The `perfil_link` computation of `extract_deputada_from_element`:
    the first `<a href>` is kept when it points under `/deputados/`,
    absolutized against the site root when relative. -/
def mkPerfilLink : Option String → String
  | none => ""
  | some href =>
      if strContains href "/deputados/" then
        if strStartsWith href "http" then href
        else "https://www.camara.leg.br" ++ href
      else ""

/-- `extract_deputada_from_element(element, source_url)`; `ts` is the
    value `time.strftime("%Y-%m-%d %H:%M:%S")` returns at the moment the
    record is built. -/
def extract_deputada_from_element (element : Element) (source_url ts : String) :
    Option DeputadaData :=
  let nome0 := extract_text_by_selectors element.sel nome_selectors
  if nome0 = "" || nome0.length < 3 then none
  else
    let nome := clean_deputada_name nome0
    if nome = "" then none
    else
      let partido := extract_text_by_selectors element.sel partido_selectors
      let uf := extract_text_by_selectors element.sel uf_selectors
      let legislatura := extract_text_by_selectors element.sel legislatura_selectors
      let situacao := extract_text_by_selectors element.sel situacao_selectors
      let perfil_link := mkPerfilLink element.firstHref
      some
        { nome := nome
          partido := if partido ≠ "" then clean_text partido else ""
          uf := if uf ≠ "" then clean_text uf else ""
          legislatura := if legislatura ≠ "" then clean_text legislatura else "Múltiplas legislaturas"
          situacao := if situacao ≠ "" then clean_text situacao else "Conforme período"
          link_perfil := perfil_link
          fonte_dados := "Web Scraping HTML"
          url_fonte := source_url
          data_extracao := ts
          metodo_extracao := "BeautifulSoup - Câmara dos Deputados (filtro sexo=F)" }

/-- Erase the extraction-timestamp field (the field the idempotence claim
    excludes from the comparison). -/
def eraseTs (d : DeputadaData) : DeputadaData :=
  { d with data_extracao := "" }

/-! ## Derived observers and claim-side predicates -/

/-- The per-gender totals of a `processar_dados` result, when it produced
    the `resultado_final` dict. -/
def procStats : ProcOutcome → Option GenderTally
  | .resultado s _ => some s
  | _ => none

/-- The record list of a `processar_dados` result, when it produced the
    `resultado_final` dict. -/
def procRecs : ProcOutcome → Option (List Vereadora)
  | .resultado _ vs => some vs
  | _ => none

/-- The GenderTally invariant: total = male + female + other-or-unknown. -/
def tallyInv (s : GenderTally) : Prop :=
  s.total_eleitos_geral
    = s.total_homens_eleitos + s.total_mulheres_eleitas + s.total_nao_divulgado_eleitos

/-- The condition under which the row loop of `processar_dados` reaches
    `stats["total_eleitos_geral"] += 1`: both keys present, office code
    `13`, outcome among the fixed elected variants, not an alternate, not
    "not elected" — imposed on ALL office-matching rows, before the
    gender classification. -/
def aceitaLinha (r : Row) : Bool :=
  r.cd_cargo.isSome && r.cd_genero.isSome &&
  decide (r.cd_cargo = some "13") &&
  (let sit := pyUpper (r.ds_sit_tot_turno.getD "")
   decide (sit ∈ termos_vitoria) &&
   !(strContains sit "SUPLENTE") && !(strContains sit "NÃO ELEITO"))

/-- Number of rows whose office code matches the target office. -/
def countOfficeMatch (rows : List Row) : Nat :=
  (rows.filter (fun r => decide (r.cd_cargo = some "13"))).length

/-- Number of office-matching rows that are gender-female and elected. -/
def countFemaleElected (rows : List Row) : Nat :=
  (rows.filter (fun r =>
    decide (r.cd_cargo = some "13") && decide (r.cd_genero = some "4") &&
    decide (pyUpper (r.ds_sit_tot_turno.getD "") ∈ termos_vitoria))).length

/-- A female elected city-councilor row of the synthetic archives. -/
def rowFemale (sit : String) : Row :=
  { cd_cargo := some "13", cd_genero := some "4", ds_sit_tot_turno := some sit,
    nm_urna_candidato := some "MARIA", nm_candidato := some "MARIA SILVA",
    sg_partido := some "XYZ", sg_uf := some "SC", nm_ue := some "FLORIANÓPOLIS" }

/-- A male city-councilor row with the given outcome text. -/
def rowMale (sit : String) : Row :=
  { cd_cargo := some "13", cd_genero := some "2", ds_sit_tot_turno := some sit,
    nm_urna_candidato := some "JOÃO", nm_candidato := some "JOÃO SILVA" }

/-- A row for a different office (code 12). -/
def rowOtherOffice : Row :=
  { cd_cargo := some "12", cd_genero := some "2", ds_sit_tot_turno := some "ELEITO" }

/-- Synthetic archive rows for the counterexample to claim C1: 10 rows,
    6 match the office code, 3 of those are gender-female and elected —
    the other 3 office-matching rows are alternates (not elected). -/
def c1rows : List Row :=
  [rowFemale "ELEITO", rowFemale "ELEITO", rowFemale "ELEITO",
   rowMale "SUPLENTE", rowMale "SUPLENTE", rowMale "SUPLENTE",
   rowOtherOffice, rowOtherOffice, rowOtherOffice, rowOtherOffice]

/-- Synthetic archive rows for the amended claim C1: 10 rows, 6 match the
    office code and are all elected, 3 of those gender-female. -/
def c1rowsAmended : List Row :=
  [rowFemale "ELEITO", rowFemale "ELEITO", rowFemale "ELEITO",
   rowMale "ELEITO", rowMale "ELEITO POR QP", rowMale "ELEITO POR MÉDIA",
   rowOtherOffice, rowOtherOffice, rowOtherOffice, rowOtherOffice]

def c1archive : Download := .ok [("consulta_cand_2024_SC.csv", c1rows)]

def c1archiveAmended : Download := .ok [("consulta_cand_2024_SC.csv", c1rowsAmended)]

/-- An archive whose only member file has no elected office-13 row at
    all (the failing input of claim C2). -/
def c2archiveZeroElected : Download := .ok [("consulta_cand_2024_SC.csv", [rowOtherOffice])]

/-- The state a `pagStep` result carries (`cont` and `halt` alike). -/
def stepState : StepRes α → PagState α
  | .cont s => s
  | .halt s => s

/-- Mock page environment for claim C4: pages 2 and 3 yield records,
    page 4 carries a "no results" marker, page 5 would yield a record if
    it were ever fetched. -/
def c4fetch : Nat → FetchOutcome Nat := fun p =>
  if p = 2 then .ok "Resultado da busca: deputadas em exercício" [21, 22]
  else if p = 3 then .ok "Resultado da busca: deputadas em exercício" [31]
  else if p = 4 then .ok "Nenhuma ocorrência encontrada para sua busca" []
  else .ok "Resultado da busca: deputadas em exercício" [99]

/-- Whether a `select_one` outcome yields a stripped text of length > 1
    (the acceptance test of `extract_text_by_selectors`). -/
def selYields : SelOutcome → Bool
  | .found t => (pyStrip t) ≠ "" && (pyStrip t).length > 1
  | _ => false

/-- Ten base records for the enricher scenario (each carries the `nome`
    the loop prints and a non-empty profile link). -/
def c5recs : List Dict :=
  [[("nome", "A1"), ("link_perfil", "https://site/p/1")],
   [("nome", "A2"), ("link_perfil", "https://site/p/2")],
   [("nome", "A3"), ("link_perfil", "https://site/p/3")],
   [("nome", "A4"), ("link_perfil", "https://site/p/4")],
   [("nome", "A5"), ("link_perfil", "https://site/p/5")],
   [("nome", "A6"), ("link_perfil", "https://site/p/6")],
   [("nome", "A7"), ("link_perfil", "https://site/p/7")],
   [("nome", "A8"), ("link_perfil", "https://site/p/8")],
   [("nome", "A9"), ("link_perfil", "https://site/p/9")],
   [("nome", "A10"), ("link_perfil", "https://site/p/10")]]

/-- A profile-fetch environment in which exactly 4 of the 10 fetches
    fail (positions 2, 5, 7 and 9). -/
def c5fetch : Nat → ProfileFetch := fun i =>
  if i = 2 || i = 5 || i = 7 || i = 9 then .exn
  else .success [("nome_civil", "Nome Civil"), ("naturalidade", "Cidade - UF")]

/-- A `select_one` environment in which no selector yields a usable
    text: an exception, no match, and a match whose stripped text has
    length 1. -/
def c8el : String → SelOutcome := fun sel =>
  if sel = ".a" then .exn
  else if sel = ".b" then .noMatch
  else if sel = ".c" then .found "  x "
  else .noMatch

/-! ## Helper lemmas: CSV/ZIP row loop -/

theorem processarLinha_total_eq (stats : GenderTally) (r : Row) (u t : String) :
    (processarLinha stats r u t).1.total_eleitos_geral
      = stats.total_eleitos_geral + (if aceitaLinha r then 1 else 0) := by
  unfold processarLinha aceitaLinha
  cases hc : r.cd_cargo with
  | none => simp
  | some c =>
    by_cases h13 : c = "13"
    · subst h13
      cases hg : r.cd_genero with
      | none => simp
      | some g =>
        by_cases hm : pyUpper (r.ds_sit_tot_turno.getD "") ∈ termos_vitoria
        · by_cases hs : strContains (pyUpper (r.ds_sit_tot_turno.getD "")) "SUPLENTE" = true
          · simp [hm, hs]
          · by_cases hn : strContains (pyUpper (r.ds_sit_tot_turno.getD "")) "NÃO ELEITO" = true
            · simp [hm, hs, hn]
            · simp only [hm, hs, hn]
              simp
              split <;> simp_all
        · simp [hm]
    · simp [h13]

theorem processarLinha_record_eq (stats : GenderTally) (r : Row) (u t : String) :
    (processarLinha stats r u t).2.isSome
      = (aceitaLinha r && decide (r.cd_genero = some "4")) := by
  unfold processarLinha aceitaLinha
  cases hc : r.cd_cargo with
  | none => simp
  | some c =>
    by_cases h13 : c = "13"
    · subst h13
      cases hg : r.cd_genero with
      | none => simp
      | some g =>
        by_cases hm : pyUpper (r.ds_sit_tot_turno.getD "") ∈ termos_vitoria
        · by_cases hs : strContains (pyUpper (r.ds_sit_tot_turno.getD "")) "SUPLENTE" = true
          · simp [hm, hs]
          · by_cases hn : strContains (pyUpper (r.ds_sit_tot_turno.getD "")) "NÃO ELEITO" = true
            · simp [hm, hs, hn]
            · simp only [hm, hs, hn]
              simp
              split <;> simp_all
        · simp [hm]
    · simp [h13]

theorem processarLinha_inv (stats : GenderTally) (r : Row) (u t : String)
    (h : tallyInv stats) : tallyInv (processarLinha stats r u t).1 := by
  unfold processarLinha
  cases hc : r.cd_cargo with
  | none => simpa using h
  | some c =>
    by_cases h13 : c = "13"
    · subst h13
      cases hg : r.cd_genero with
      | none => simpa using h
      | some g =>
        by_cases hm : pyUpper (r.ds_sit_tot_turno.getD "") ∈ termos_vitoria
        · by_cases hs : strContains (pyUpper (r.ds_sit_tot_turno.getD "")) "SUPLENTE" = true
          · simpa [hm, hs] using h
          · by_cases hn : strContains (pyUpper (r.ds_sit_tot_turno.getD "")) "NÃO ELEITO" = true
            · simpa [hm, hs, hn] using h
            · simp only [hm, hs, hn]
              simp
              unfold tallyInv at h ⊢
              split <;> simp_all <;> omega
        · simpa [hm] using h
    · simpa [h13] using h

theorem processLinhas_inv (u t : String) :
    ∀ (rows : List Row) (stats : GenderTally) (vs : List Vereadora),
      tallyInv stats → tallyInv (processLinhas u t (stats, vs) rows).1
  | [], _, _, h => h
  | r :: rest, stats, vs, h => by
      simp only [processLinhas]
      have h' := processarLinha_inv stats r u t h
      rcases hpr : processarLinha stats r u t with ⟨s', rec?⟩
      rw [hpr] at h'
      exact processLinhas_inv u t rest s' (vs ++ rec?.toList) h'

/-! ## Claims C1, C2, C9: the CSV/ZIP path -/

/-- C1 (counterexample): the claim is false as stated.  On a synthetic
    archive of 10 rows of which 6 match office code 13 and 3 of those are
    gender-female and elected, but the remaining 3 office-matching rows
    are alternates, the elected-total tally is 3, not 6: the code imposes
    the elected-status requirement on every office-matching row *before*
    incrementing the tally, not only on rows classified female. -/
theorem C1_counterexample :
    c1rows.length = 10 ∧
    countOfficeMatch c1rows = 6 ∧
    countFemaleElected c1rows = 3 ∧
    (procRecs (processar_dados c1archive "url" "2024-10-01")).map List.length = some 3 ∧
    (procStats (processar_dados c1archive "url" "2024-10-01")).map
        GenderTally.total_eleitos_geral = some 3 ∧
    (procStats (processar_dados c1archive "url" "2024-10-01")).map
        GenderTally.total_eleitos_geral ≠ some 6 := by
  refine ⟨by decide, by decide, by decide, by decide, by decide, by decide⟩

/-- C1 (amended): a row increments the elected-total tally exactly when
    its office code matches AND its outcome text is among the fixed
    elected variants (not an alternate, not "not elected") — the
    elected-status requirement is imposed on all office-matching rows
    before the gender classification — and a CandidateRecord is built
    exactly for such rows that are additionally gender-female; on a
    synthetic archive with 10 rows of which 6 match the office code and
    are elected, 3 of those gender-female, the result contains exactly 3
    records and the elected-total tally equals 6. -/
theorem C1_amended_thm :
    (∀ (stats : GenderTally) (r : Row) (u t : String),
        (processarLinha stats r u t).1.total_eleitos_geral
          = stats.total_eleitos_geral + (if aceitaLinha r then 1 else 0) ∧
        (processarLinha stats r u t).2.isSome
          = (aceitaLinha r && decide (r.cd_genero = some "4"))) ∧
    c1rowsAmended.length = 10 ∧
    countOfficeMatch c1rowsAmended = 6 ∧
    countFemaleElected c1rowsAmended = 3 ∧
    (procRecs (processar_dados c1archiveAmended "url" "2024-10-01")).map List.length = some 3 ∧
    (procStats (processar_dados c1archiveAmended "url" "2024-10-01")).map
        GenderTally.total_eleitos_geral = some 6 :=
  ⟨fun stats r u t =>
      ⟨processarLinha_total_eq stats r u t, processarLinha_record_eq stats r u t⟩,
   by decide, by decide, by decide, by decide, by decide⟩

/-- C2 (code bug): the claim states every top-level `main` completes
    without an uncaught exception even on total failure.  The code
    contradicts this intent: in `coletor_dados_abertos_vereadoras.py`,
    an archive yielding zero elected rows makes `processar_dados` compute
    `mulheres / total` with `total == 0` *outside* its `try` block
    (uncaught `ZeroDivisionError`), and when `processar_dados` returns its
    empty-list failure value, `main` evaluates `resultado["vereadoras"]`
    on a `list` (uncaught `TypeError`). -/
theorem C2_main_crashes :
    coletor_main (some "url") c2archiveZeroElected "2024-10-01"
        = MainOutcome.raised "ZeroDivisionError" ∧
    coletor_main (some "url") Download.fail "2024-10-01"
        = MainOutcome.raised "TypeError" := by
  refine ⟨by decide, by decide⟩

/-- C9: throughout the CSV/ZIP path's row loop, at every row-iteration
    boundary (i.e. after processing any prefix of the rows, starting from
    the zeroed counters), the tally satisfies
    total-elected = male-elected + female-elected + other-or-unknown. -/
theorem C9_tally_invariant (rows : List Row) (u t : String) (k : Nat) :
    tallyInv (processLinhas u t ({}, []) (rows.take k)).1 :=
  processLinhas_inv u t (rows.take k) {} [] rfl

/-! ## Helper lemmas: Paginator -/

theorem pagLoop_stuck (fetch : Nat → FetchOutcome α) (fuel : Nat) (s : PagState α)
    (h : ¬ s.errors < max_consecutive_errors) : pagLoop fetch fuel s = s := by
  cases fuel <;> simp [pagLoop, h]

theorem pagStep_failure (fetch : Nat → FetchOutcome α) (s : PagState α)
    (h : isFetchFailure (fetch (s.page + 1)) = true) :
    pagStep fetch s
      = .cont { page := s.page + 1, errors := s.errors + 1, acc := s.acc,
                fetched := s.fetched ++ [s.page + 1] } := by
  unfold pagStep
  cases hf : fetch (s.page + 1) <;> simp_all [isFetchFailure]

theorem pagStep_reset (fetch : Nat → FetchOutcome α) (s : PagState α)
    (text : String) (records : List α)
    (hf : fetch (s.page + 1) = .ok text records)
    (hr : records.isEmpty = false)
    (hi : (no_results_indicators.any fun ind => strContains (pyLower text) ind) = false) :
    pagStep fetch s
      = .cont { page := s.page + 1, errors := 0, acc := s.acc ++ records,
                fetched := s.fetched ++ [s.page + 1] } := by
  unfold pagStep
  simp [hf, hi, hr]

theorem pagLoop_succ_failure (fetch : Nat → FetchOutcome α) (s : PagState α) (fuel : Nat)
    (he : s.errors < max_consecutive_errors)
    (h : isFetchFailure (fetch (s.page + 1)) = true) :
    pagLoop fetch (fuel + 1) s
      = pagLoop fetch fuel
          { page := s.page + 1, errors := s.errors + 1, acc := s.acc,
            fetched := s.fetched ++ [s.page + 1] } := by
  simp only [pagLoop, he, if_true, pagStep_failure fetch s h]

theorem pagLoop_three_failures (fetch : Nat → FetchOutcome α) (s : PagState α) (fuel : Nat)
    (he : s.errors = 0)
    (h1 : isFetchFailure (fetch (s.page + 1)) = true)
    (h2 : isFetchFailure (fetch (s.page + 1 + 1)) = true)
    (h3 : isFetchFailure (fetch (s.page + 1 + 1 + 1)) = true) :
    pagLoop fetch (fuel + 3) s
      = { page := s.page + 1 + 1 + 1, errors := 3, acc := s.acc,
          fetched := s.fetched ++ [s.page + 1, s.page + 1 + 1, s.page + 1 + 1 + 1] } := by
  have e1 : pagLoop fetch (fuel + 3) s
      = pagLoop fetch (fuel + 2)
          { page := s.page + 1, errors := s.errors + 1, acc := s.acc,
            fetched := s.fetched ++ [s.page + 1] } :=
    pagLoop_succ_failure fetch s (fuel + 2) (by simp [he, max_consecutive_errors]) h1
  have e2 := pagLoop_succ_failure fetch
      { page := s.page + 1, errors := s.errors + 1, acc := s.acc,
        fetched := s.fetched ++ [s.page + 1] } (fuel + 1)
      (by simp [he, max_consecutive_errors]) (by simpa using h2)
  have e3 := pagLoop_succ_failure fetch
      { page := s.page + 1 + 1, errors := s.errors + 1 + 1, acc := s.acc,
        fetched := (s.fetched ++ [s.page + 1]) ++ [s.page + 1 + 1] } fuel
      (by simp [he, max_consecutive_errors]) (by simpa using h3)
  rw [e1, e2, e3, pagLoop_stuck]
  · simp [he]
  · simp [he, max_consecutive_errors]

theorem pagStep_fetched (fetch : Nat → FetchOutcome α) (s : PagState α) :
    (stepState (pagStep fetch s)).fetched = s.fetched ++ [s.page + 1] := by
  unfold pagStep
  cases hf : fetch (s.page + 1) with
  | ok text records =>
      simp only [hf]
      split
      · rfl
      · split
        · rfl
        · split <;> rfl
  | notFound => simp [hf, stepState]
  | httpError code => simp [hf, stepState]
  | exn => simp [hf, stepState]

theorem pagLoop_fetched_mono (fetch : Nat → FetchOutcome α) :
    ∀ (fuel : Nat) (s : PagState α), ∃ t, (pagLoop fetch fuel s).fetched = s.fetched ++ t
  | 0, s => ⟨[], by simp [pagLoop]⟩
  | fuel + 1, s => by
      by_cases he : s.errors < max_consecutive_errors
      · simp only [pagLoop, he, if_true]
        have hfet := pagStep_fetched fetch s
        cases hps : pagStep fetch s with
        | halt s' =>
            rw [hps] at hfet
            exact ⟨[s.page + 1], by simpa [stepState] using hfet⟩
        | cont s' =>
            rw [hps] at hfet
            simp only [stepState] at hfet
            obtain ⟨t, ht⟩ := pagLoop_fetched_mono fetch fuel s'
            exact ⟨[s.page + 1] ++ t, by rw [ht, hfet, List.append_assoc]⟩
      · exact ⟨[], by simp [pagLoop_stuck fetch _ s he]⟩

theorem pagLoop_halt_indicator (fetch : Nat → FetchOutcome α) (s : PagState α) (fuel : Nat)
    (text : String) (records : List α)
    (he : s.errors < max_consecutive_errors)
    (hf : fetch (s.page + 1) = .ok text records)
    (hi : (no_results_indicators.any fun ind => strContains (pyLower text) ind) = true) :
    pagLoop fetch (fuel + 1) s
      = { page := s.page + 1, errors := s.errors, acc := s.acc,
          fetched := s.fetched ++ [s.page + 1] } := by
  simp only [pagLoop, he, if_true]
  unfold pagStep
  simp [hf, hi]

theorem pagLoop_halt_empty (fetch : Nat → FetchOutcome α) (s : PagState α) (fuel : Nat)
    (text : String)
    (he : s.errors < max_consecutive_errors)
    (hf : fetch (s.page + 1) = .ok text [])
    (hi : (no_results_indicators.any fun ind => strContains (pyLower text) ind) = false)
    (hk1 : strContains (pyLower text) "deputad" = false)
    (hk2 : strContains (pyLower text) "resultado" = false) :
    pagLoop fetch (fuel + 1) s
      = { page := s.page + 1, errors := s.errors, acc := s.acc,
          fetched := s.fetched ++ [s.page + 1] } := by
  simp only [pagLoop, he, if_true]
  unfold pagStep
  simp [hf, hi, hk1, hk2]

theorem pagLoop_halt_404 (fetch : Nat → FetchOutcome α) (s : PagState α) (fuel : Nat)
    (he : s.errors < max_consecutive_errors)
    (hf : fetch (s.page + 1) = .notFound) :
    pagLoop fetch (fuel + 1) s
      = { page := s.page + 1, errors := s.errors, acc := s.acc,
          fetched := s.fetched ++ [s.page + 1] } := by
  simp only [pagLoop, he, if_true]
  unfold pagStep
  simp [hf]

/-! ## Claims C3, C4, C10: the Paginator -/

/-- C3: the consecutive-failure counter resets to zero on any page that
    yields at least one valid record, and after 3 consecutive fetch
    failures (starting from a clean counter) the loop stops having
    fetched exactly those 3 pages, returning exactly the records
    accumulated before the failures. -/
theorem C3_failure_budget :
    (∀ (α : Type) (fetch : Nat → FetchOutcome α) (s : PagState α) (text : String)
        (records : List α),
        fetch (s.page + 1) = .ok text records →
        records.isEmpty = false →
        (no_results_indicators.any fun ind => strContains (pyLower text) ind) = false →
        pagStep fetch s = .cont { page := s.page + 1, errors := 0, acc := s.acc ++ records,
                                  fetched := s.fetched ++ [s.page + 1] }) ∧
    (∀ (α : Type) (fetch : Nat → FetchOutcome α) (s : PagState α) (fuel : Nat),
        s.errors = 0 →
        isFetchFailure (fetch (s.page + 1)) = true →
        isFetchFailure (fetch (s.page + 1 + 1)) = true →
        isFetchFailure (fetch (s.page + 1 + 1 + 1)) = true →
        pagLoop fetch (fuel + 3) s
          = { page := s.page + 1 + 1 + 1, errors := 3, acc := s.acc,
              fetched := s.fetched ++ [s.page + 1, s.page + 1 + 1, s.page + 1 + 1 + 1] }) :=
  ⟨fun _ fetch s text records hf hr hi => pagStep_reset fetch s text records hf hr hi,
   fun _ fetch s fuel he h1 h2 h3 => pagLoop_three_failures fetch s fuel he h1 h2 h3⟩

/-- Witness for C3: a successful page resets the counter to 0; with every
    fetch failing, the loop stops after pages 2, 3, 4 and returns the
    accumulator untouched. -/
theorem C3_failure_budget_witness :
    pagStep (fun _ => (FetchOutcome.ok "lista de deputadas" [7] : FetchOutcome Nat))
        { page := 1, errors := 2, acc := [5], fetched := [1] }
      = .cont { page := 2, errors := 0, acc := [5, 7], fetched := [1, 2] } ∧
    pagLoop (fun _ => (FetchOutcome.httpError 500 : FetchOutcome Nat)) 3
        { page := 1, errors := 0, acc := [42], fetched := [1] }
      = { page := 4, errors := 3, acc := [42], fetched := [1, 2, 3, 4] } :=
  ⟨C3_failure_budget.1 Nat _ _ "lista de deputadas" [7] rfl (by decide) (by decide),
   C3_failure_budget.2 Nat _ _ 0 rfl rfl rfl rfl⟩

/-- C4: the loop halts (DONE) when the fetched page carries a
    "no results" phrase, when it yields zero records and no role-related
    keyword, or on HTTP 404 — each time returning the previously
    accumulated records and fetching no later page; in the mocked
    scenario with a "no results" marker on page 4, the result is the
    union of pages 1–3's records and page 5 is never fetched. -/
theorem C4_done_conditions :
    (∀ (α : Type) (fetch : Nat → FetchOutcome α) (s : PagState α) (fuel : Nat)
        (text : String) (records : List α),
        s.errors < max_consecutive_errors →
        fetch (s.page + 1) = .ok text records →
        (no_results_indicators.any fun ind => strContains (pyLower text) ind) = true →
        pagLoop fetch (fuel + 1) s
          = { page := s.page + 1, errors := s.errors, acc := s.acc,
              fetched := s.fetched ++ [s.page + 1] }) ∧
    (∀ (α : Type) (fetch : Nat → FetchOutcome α) (s : PagState α) (fuel : Nat) (text : String),
        s.errors < max_consecutive_errors →
        fetch (s.page + 1) = .ok text [] →
        (no_results_indicators.any fun ind => strContains (pyLower text) ind) = false →
        strContains (pyLower text) "deputad" = false →
        strContains (pyLower text) "resultado" = false →
        pagLoop fetch (fuel + 1) s
          = { page := s.page + 1, errors := s.errors, acc := s.acc,
              fetched := s.fetched ++ [s.page + 1] }) ∧
    (∀ (α : Type) (fetch : Nat → FetchOutcome α) (s : PagState α) (fuel : Nat),
        s.errors < max_consecutive_errors →
        fetch (s.page + 1) = .notFound →
        pagLoop fetch (fuel + 1) s
          = { page := s.page + 1, errors := s.errors, acc := s.acc,
              fetched := s.fetched ++ [s.page + 1] }) ∧
    process_paginated_results c4fetch [11, 12] 10
      = { page := 4, errors := 0, acc := [11, 12, 21, 22, 31], fetched := [1, 2, 3, 4] } ∧
    (process_paginated_results c4fetch [11, 12] 10).fetched.contains 5 = false :=
  ⟨fun _ fetch s fuel text records he hf hi =>
      pagLoop_halt_indicator fetch s fuel text records he hf hi,
   fun _ fetch s fuel text he hf hi hk1 hk2 =>
      pagLoop_halt_empty fetch s fuel text he hf hi hk1 hk2,
   fun _ fetch s fuel he hf => pagLoop_halt_404 fetch s fuel he hf,
   by decide, by decide⟩

/-- Witness for C4: each of the three halt conditions exercised at a
    concrete state and environment. -/
theorem C4_done_conditions_witness :
    pagLoop (fun _ => (FetchOutcome.ok "Nenhuma ocorrência encontrada" ([] : List Nat))) 1
        { page := 3, errors := 0, acc := [9], fetched := [1, 2, 3] }
      = { page := 4, errors := 0, acc := [9], fetched := [1, 2, 3, 4] } ∧
    pagLoop (fun _ => (FetchOutcome.ok "pagina institucional" ([] : List Nat))) 1
        { page := 1, errors := 0, acc := [], fetched := [1] }
      = { page := 2, errors := 0, acc := [], fetched := [1, 2] } ∧
    pagLoop (fun _ => (FetchOutcome.notFound : FetchOutcome Nat)) 1
        { page := 2, errors := 1, acc := [3], fetched := [1, 2] }
      = { page := 3, errors := 1, acc := [3], fetched := [1, 2, 3] } :=
  ⟨C4_done_conditions.1 Nat _ _ 0 "Nenhuma ocorrência encontrada" [] (by decide) rfl (by decide),
   C4_done_conditions.2.1 Nat _ _ 0 "pagina institucional" (by decide) rfl (by decide)
     (by decide) (by decide),
   C4_done_conditions.2.2.1 Nat _ _ 0 (by decide) rfl⟩

/-- C10: the first page is exempt from the failure accounting — after
    processing page 1 the loop state always has a zero error counter and
    no halt decision has been taken (whatever page 1 yielded, including
    nothing), and the loop's first action is always to fetch page 2. -/
theorem C10_first_page_exempt (fetch : Nat → FetchOutcome α) (p1 : List α) (fuel : Nat) :
    process_paginated_results fetch p1 0
      = { page := 1, errors := 0, acc := p1, fetched := [1] } ∧
    ∃ rest, (process_paginated_results fetch p1 (fuel + 1)).fetched = 1 :: 2 :: rest := by
  constructor
  · rfl
  · unfold process_paginated_results
    simp only [pagLoop]
    rw [if_pos (by simp [max_consecutive_errors])]
    have hfet := pagStep_fetched fetch { page := 1, errors := 0, acc := p1, fetched := [1] }
    cases hps : pagStep fetch { page := 1, errors := 0, acc := p1, fetched := [1] } with
    | halt s' =>
        rw [hps] at hfet
        simp only [stepState] at hfet
        exact ⟨[], by simp [hfet]⟩
    | cont s' =>
        rw [hps] at hfet
        simp only [stepState] at hfet
        obtain ⟨t, ht⟩ := pagLoop_fetched_mono fetch fuel s'
        exact ⟨t, by simp [ht, hfet]⟩

/-! ## Helper lemmas and claim C5: the Profile Enricher -/

theorem enrichAll_length (fetch : Nat → ProfileFetch) :
    ∀ (i : Nat) (recs : List Dict), (enrichAll fetch i recs).length = recs.length
  | _, [] => rfl
  | i, _ :: rest => by simp [enrichAll, enrichAll_length fetch (i + 1) rest]

theorem collect_detailed_profiles_eq (fetch : Nat → ProfileFetch) :
    ∀ (recs : List Dict) (i : Nat),
      (recs.all fun d => (d.lookup "nome").isSome) = true →
      collect_detailed_profiles fetch i recs = some (enrichAll fetch i recs)
  | [], _, _ => rfl
  | d :: rest, i, h => by
      simp only [List.all_cons, Bool.and_eq_true] at h
      obtain ⟨hd, hrest⟩ := h
      simp only [collect_detailed_profiles, enrichAll]
      cases hn : d.lookup "nome" with
      | none => rw [hn] at hd; simp at hd
      | some v =>
          rw [collect_detailed_profiles_eq fetch rest (i + 1) hrest]
          rfl

/-- C5: on records that all carry a `nome` key (as Record-Builder output
    always does), the enricher returns exactly one output per input, in
    order: position `i` is the merge of base record and details when its
    fetch succeeds and the base record unchanged otherwise — so output
    length always equals input length, regardless of fetch failures. -/
theorem C5_enricher_one_to_one (fetch : Nat → ProfileFetch) (recs : List Dict)
    (h : (recs.all fun d => (d.lookup "nome").isSome) = true) :
    collect_detailed_profiles fetch 1 recs = some (enrichAll fetch 1 recs) ∧
    (enrichAll fetch 1 recs).length = recs.length :=
  ⟨collect_detailed_profiles_eq fetch recs 1 h, enrichAll_length fetch 1 recs⟩

/-- Witness for C5: 10 inputs with 4 simulated fetch failures produce
    exactly 10 outputs. -/
theorem C5_enricher_one_to_one_witness :
    c5recs.length = 10 ∧
    collect_detailed_profiles c5fetch 1 c5recs = some (enrichAll c5fetch 1 c5recs) ∧
    (enrichAll c5fetch 1 c5recs).length = c5recs.length :=
  ⟨by decide, (C5_enricher_one_to_one c5fetch c5recs (by decide)).1,
   (C5_enricher_one_to_one c5fetch c5recs (by decide)).2⟩

/-! ## Claim C8: the Text/Field Extractor -/

/-- C8: when no locator yields a non-empty stripped text longer than one
    character, the extractor returns exactly the empty string; and a
    per-locator exception only skips that locator (the result is the one
    computed from the remaining locators). -/
theorem C8_extractor_total (el : String → SelOutcome) :
    (∀ selectors : List String,
      (selectors.all fun sel => !(selYields (el sel))) = true →
      extract_text_by_selectors el selectors = "") ∧
    (∀ (sel : String) (rest : List String),
      el sel = .exn →
      extract_text_by_selectors el (sel :: rest) = extract_text_by_selectors el rest) := by
  constructor
  · intro selectors
    induction selectors with
    | nil => intro _; rfl
    | cons sel rest ih =>
        intro h
        simp only [List.all_cons, Bool.and_eq_true] at h
        obtain ⟨hs, hrest⟩ := h
        unfold extract_text_by_selectors
        cases ho : el sel with
        | exn => exact ih hrest
        | noMatch => exact ih hrest
        | found t =>
            rw [ho] at hs
            simp only [selYields] at hs
            simp only [Bool.not_eq_true'] at hs
            simp only [hs, Bool.false_eq_true, if_false]
            exact ih hrest
  · intro sel rest hex
    simp only [extract_text_by_selectors, hex]

/-- Witness for C8: an environment whose selectors raise, miss, or yield
    a one-character text extracts the empty string, and the raising
    selector is skipped. -/
theorem C8_extractor_total_witness :
    extract_text_by_selectors c8el [".a", ".b", ".c"] = "" ∧
    extract_text_by_selectors c8el (".a" :: [".b", ".c"])
      = extract_text_by_selectors c8el [".b", ".c"] :=
  ⟨(C8_extractor_total c8el).1 [".a", ".b", ".c"] (by decide),
   (C8_extractor_total c8el).2 ".a" [".b", ".c"] rfl⟩

/-! ## Helper lemmas and claims C6, C7: the Record Builder -/

theorem startsWith_append (p l m : List Char) (h : startsWith p l = true) :
    startsWith p (l ++ m) = true := by
  induction p generalizing l with
  | nil => simp [startsWith]
  | cons a as ih =>
      cases l with
      | nil => simp [startsWith] at h
      | cons b bs =>
          simp only [startsWith, Bool.and_eq_true, decide_eq_true_eq] at h ⊢
          exact ⟨h.1, ih bs h.2⟩

theorem containsSub_nil_pat (l : List Char) : containsSub [] l = true := by
  cases l <;> simp [containsSub, startsWith]

theorem containsSub_append_right (p l m : List Char) (h : containsSub p l = true) :
    containsSub p (l ++ m) = true := by
  induction l with
  | nil =>
      simp only [containsSub, List.isEmpty_iff] at h
      subst h
      exact containsSub_nil_pat m
  | cons c rest ih =>
      simp only [containsSub, Bool.or_eq_true] at h ⊢
      rcases h with h | h
      · exact Or.inl (startsWith_append p (c :: rest) m h)
      · exact Or.inr (ih h)

theorem containsSub_append_left (p m l : List Char) (h : containsSub p l = true) :
    containsSub p (m ++ l) = true := by
  induction m with
  | nil => simpa using h
  | cons c ms ih =>
      simp only [List.cons_append, containsSub, Bool.or_eq_true]
      exact Or.inr ih

theorem containsSub_sandwich (p a l b : List Char) (h : containsSub p l = true) :
    containsSub p (a ++ l ++ b) = true := by
  rw [List.append_assoc]
  exact containsSub_append_left p a (l ++ b) (containsSub_append_right p l b h)

theorem strip_mid (m : List Char) :
    m = (m.reverse.dropWhile Char.isWhitespace).reverse
        ++ (m.reverse.takeWhile Char.isWhitespace).reverse := by
  conv_lhs => rw [← List.reverse_reverse m,
                  ← List.takeWhile_append_dropWhile (p := Char.isWhitespace) (l := m.reverse)]
  rw [List.reverse_append]

theorem pyStrip_decomp (s : String) :
    ∃ a b, s.data = a ++ (pyStrip s).data ++ b := by
  refine ⟨s.data.takeWhile Char.isWhitespace,
          ((s.data.dropWhile Char.isWhitespace).reverse.takeWhile Char.isWhitespace).reverse, ?_⟩
  conv_lhs => rw [← List.takeWhile_append_dropWhile (p := Char.isWhitespace) (l := s.data)]
  rw [List.append_assoc]
  congr 1
  exact strip_mid (s.data.dropWhile Char.isWhitespace)

theorem strContains_strip_of_lower (s pat : String)
    (h : strContains (pyLower s) pat = false) :
    strContains (pyLower (pyStrip s)) pat = false := by
  by_contra hc
  apply absurd h
  simp only [Bool.not_eq_false] at hc ⊢
  obtain ⟨a, b, hd⟩ := pyStrip_decomp s
  show containsSub pat.data (s.data.map Char.toLower) = true
  rw [hd, List.map_append, List.map_append]
  exact containsSub_sandwich _ _ _ _ hc

theorem clean_deputada_name_spec (name : String) :
    clean_deputada_name name = "" ∨
    (clean_deputada_name name = pyStrip name ∧
     3 ≤ (clean_deputada_name name).length ∧ (clean_deputada_name name).length ≤ 100 ∧
     (clean_deputada_name name).data.any Char.isAlpha = true ∧
     (unwanted_phrases.all fun p => !(strContains (pyLower (clean_deputada_name name)) p)) = true) := by
  unfold clean_deputada_name
  by_cases h0 : name = ""
  · simp [h0]
  · simp only [h0, if_false]
    by_cases hph : (unwanted_phrases.any fun phrase => strContains (pyLower name) phrase) = true
    · simp [hph]
    · simp only [hph, Bool.false_eq_true, if_false]
      by_cases hlo : (pyStrip name).length < 3
      · simp [hlo]
      · by_cases hhi : (pyStrip name).length > 100
        · simp [hlo, hhi]
        · by_cases halpha : (pyStrip name).data.any Char.isAlpha = true
          · right
            have hred : (if (decide ((pyStrip name).length < 3)
                    || decide ((pyStrip name).length > 100)) = true then ""
                else if (!(pyStrip name).data.any Char.isAlpha) = true then ""
                else pyStrip name) = pyStrip name := by
              simp [hlo, hhi, halpha]
            rw [hred]
            have hph' : ∀ p ∈ unwanted_phrases, strContains (pyLower name) p = false := by
              rw [Bool.not_eq_true, List.any_eq_false] at hph
              intro p hp
              exact Bool.not_eq_true _ |>.mp (hph p hp)
            refine ⟨rfl, by omega, by omega, halpha, ?_⟩
            simp only [List.all_eq_true, Bool.not_eq_true']
            intro p hp
            exact strContains_strip_of_lower name p (hph' p hp)
          · simp [hlo, hhi, halpha]

/-- C6: for every raw input element, the Record Builder either drops the
    record (returns none, never an error) or returns a record whose name
    has trimmed length within [3, 100], contains at least one alphabetic
    character, and contains none of the denylisted UI-noise phrases as a
    case-insensitive substring. -/
theorem C6_record_builder_name (element : Element) (source_url ts : String) :
    extract_deputada_from_element element source_url ts = none ∨
    ∃ d, extract_deputada_from_element element source_url ts = some d ∧
      3 ≤ d.nome.length ∧ d.nome.length ≤ 100 ∧
      d.nome.data.any Char.isAlpha = true ∧
      (unwanted_phrases.all fun p => !(strContains (pyLower d.nome) p)) = true := by
  unfold extract_deputada_from_element
  dsimp only
  split
  · exact Or.inl rfl
  · split
    · exact Or.inl rfl
    · rename_i h1 h2
      rcases clean_deputada_name_spec (extract_text_by_selectors element.sel nome_selectors)
        with hc | hc
      · exact absurd hc h2
      · right
        exact ⟨_, rfl, hc.2.1, hc.2.2.1, hc.2.2.2.1, hc.2.2.2.2⟩

/-- C7: running the Record Builder twice on the same raw input yields
    identical output on every field except the extraction-timestamp field
    (i.e. the output is independent of the clock value once that field
    is erased). -/
theorem C7_idempotent_modulo_ts (element : Element) (source_url t1 t2 : String) :
    Option.map eraseTs (extract_deputada_from_element element source_url t1)
      = Option.map eraseTs (extract_deputada_from_element element source_url t2) := by
  unfold extract_deputada_from_element
  dsimp only
  split
  · rfl
  · split
    · rfl
    · simp [eraseTs]

end MulheresPolitica
